import Mathlib

/-
Verification of the OTA file service (cloud service + robot daemon) against
its natural-language specification.  The Python sources are shallowly
embedded: pure helpers become Lean functions, the mutable database tables
become explicit lists of rows threaded through the functions, broker
publishes and object-store writes become explicit effect lists, and Python
exceptions become `Option`/`Except` results.  Every definition is translated
from the corresponding source function (file and line references are given in
the doc comments).
-/

namespace OTA

/-! ## Broker topic substitution (src/utils/config.py, MQTTConfig) -/

/-- Fuel-indexed left-to-right non-overlapping substring replacement on
character lists; models Python `str.replace(pat, rep)`.  The fuel is the
length of the scanned list, which suffices for a nonempty needle. -/
def replaceFuel : Nat → List Char → List Char → List Char → List Char
  | 0, s, _, _ => s
  | _ + 1, [], _, _ => []
  | n + 1, c :: rest, pat, rep =>
    if pat.isPrefixOf (c :: rest) then
      rep ++ replaceFuel n ((c :: rest).drop pat.length) pat rep
    else
      c :: replaceFuel n rest pat rep

/-- Python `s.replace(pat, rep)` for a nonempty `pat`. -/
def replaceAll (s pat rep : List Char) : List Char :=
  replaceFuel s.length s pat rep

/-- The literal `<robot_id>` substituted by MQTTConfig topic generation. -/
def robotToken : List Char := "<robot_id>".data

/-- The literal `<operation>` substituted by MQTTConfig topic generation. -/
def operationToken : List Char := "<operation>".data

/-- MQTTConfig topic generation (config.py:97-107): replace `<robot_id>`
first, then `<operation>`. -/
def substituteTopic (pat robot_id operation : List Char) : List Char :=
  replaceAll (replaceAll pat robotToken robot_id) operationToken operation

/-- The three broker operations. -/
inductive MqttOp | deploy | state | ack
deriving DecidableEq

def MqttOp.text : MqttOp → List Char
  | .deploy => "deploy".data
  | .state => "state".data
  | .ack => "ack".data

/-- Topic for a `(robot_id, operation)` pair under a configured topic
pattern; covers `get_deploy_topic` / `get_state_topic` / `get_ack_topic`
(config.py:97-107). -/
def topicFor (pat : List Char) (robot_id : List Char) (op : MqttOp) : List Char :=
  substituteTopic pat robot_id op.text

/-- MQTTConfig `get_deploy_topic` on strings. -/
def get_deploy_topic (pat robot_id : String) : String :=
  ⟨topicFor pat.data robot_id.data .deploy⟩

/-- MQTTConfig `get_state_topic` on strings. -/
def get_state_topic (pat robot_id : String) : String :=
  ⟨topicFor pat.data robot_id.data .state⟩

/-- MQTTConfig `get_ack_topic` on strings. -/
def get_ack_topic (pat robot_id : String) : String :=
  ⟨topicFor pat.data robot_id.data .ack⟩

/-- MQTTConfig's `validate_robot_id_substring` validator (config.py:89-95):
the pattern must contain both literals. -/
def validTopicPattern (pat : List Char) : Bool :=
  decide (robotToken <:+: pat) && decide (operationToken <:+: pat)

/-- The default topic pattern `ota/<robot_id>/<operation>` (config.py:83-87). -/
def defaultTopicPattern : List Char := "ota/<robot_id>/<operation>".data

/-! ## Canonical JSON serialization (Python json.dumps of a str-to-str dict)

Python's `json.dumps` on a `dict[str, str]` emits entries in insertion
order with `", "` and `": "` separators.  Keys and values in this model are
plain strings without JSON escape characters, so quoting is plain. -/

def jsonQuote (s : String) : String := "\"" ++ s ++ "\""

def jsonDumpsPairs : List (String × String) → String
  | [] => ""
  | [(k, v)] => jsonQuote k ++ ": " ++ jsonQuote v
  | (k, v) :: rest => jsonQuote k ++ ": " ++ jsonQuote v ++ ", " ++ jsonDumpsPairs rest

/-- Python `json.dumps` of a string-to-string dict in insertion order.  Note
the source calls it WITHOUT `sort_keys=True` (api_v1.py:95). -/
def jsonDumps (m : List (String × String)) : String :=
  "\x7b" ++ jsonDumpsPairs m ++ "\x7d"

/-- Scan the remaining characters of a JSON string literal up to its closing
quote: the literal's characters and the rest of the input. -/
def scanString : List Char → Option (List Char × List Char)
  | [] => none
  | c :: rest =>
    if c == '"' then some ([], rest)
    else match scanString rest with
      | some (s, r) => some (c :: s, r)
      | none => none

/-- Fuel-indexed parser for the pair list of a serialized flat
string-to-string JSON object, consuming the closing brace. -/
def parsePairs : Nat → List Char → Option (List (String × String))
  | 0, _ => none
  | fuel + 1, cs =>
    match cs with
    | '"' :: cs1 =>
      match scanString cs1 with
      | none => none
      | some (k, cs2) =>
        match cs2 with
        | ':' :: ' ' :: '"' :: cs3 =>
          match scanString cs3 with
          | none => none
          | some (v, cs4) =>
            match cs4 with
            | ['\x7d'] => some [(String.mk k, String.mk v)]
            | ',' :: ' ' :: cs5 =>
              (parsePairs fuel cs5).map (fun rest => (String.mk k, String.mk v) :: rest)
            | _ => none
        | _ => none
    | _ => none

/-- `json.loads` as far as this service's stored data exercises it: the
`deploy_msg` strings the registry holds are written by
OTAFileService.deploy_file as `json.dumps` of a flat string-to-string dict
(ota_file_service.py:158-163), so the model recognizes exactly that
canonical serialization and returns the pair list.  Any other text models a
`json.loads`/lookup failure escaping the caller. -/
def parseJsonObj (s : String) : Option (List (String × String)) :=
  match s.data with
  | ['\x7b', '\x7d'] => some []
  | '\x7b' :: rest => parsePairs rest.length rest
  | _ => none

/-- Python dict key lookup in an insertion-ordered pair list. -/
def lookupField (fields : List (String × String)) (k : String) : Option String :=
  (fields.find? (fun p => p.fst == k)).map (fun p => p.snd)

/-! ## Cloud job registry (src/app/classes/models.py, crud.py) -/

/-- models.JobStatus (models.py:68-72). -/
inductive JobStatus | PENDING | RECEIVED | COMPLETED | FAILED
deriving DecidableEq

/-- One row of the `deploy_jobs` table (models.DeployJob, models.py:74-84).
Timestamps are modeled as naturals. -/
structure DeployJobRow where
  job_id : String
  status : JobStatus
  robot_id : String
  deploy_path : String
  deploy_msg : String
  timestamp : Nat
  error_msg : Option String
deriving DecidableEq

/-- SQLAlchemy exceptions raised by `.one()`. -/
inductive DbExn | noResultFound | multipleResultsFound
deriving DecidableEq

/-- `select(...).filter_by(job_id=job_id)` followed by `.one()`: exactly one
matching row or an exception. -/
def selectOneJob (db : List DeployJobRow) (job_id : String) : Except DbExn DeployJobRow :=
  match db.filter (fun j => j.job_id == job_id) with
  | [j] => .ok j
  | [] => .error .noResultFound
  | _ => .error .multipleResultsFound

/-- crud.get_running_jobs (crud.py:170-182).  NOTE, from the source: the
`statement` built on line 177 with `filter_by(robot_id=robot_id)` is
immediately rebound on line 178 by a fresh `select` that only filters on
status, so the result is NOT restricted to `robot_id`; the parameter is
unused.  Rows are ordered by timestamp ascending. -/
def get_running_jobs (db : List DeployJobRow) (robot_id : String) : List DeployJobRow :=
  List.insertionSort (fun a b => a.timestamp ≤ b.timestamp)
    (db.filter (fun j => j.status != JobStatus.COMPLETED && j.status != JobStatus.FAILED))

/-- crud.update_job_status (crud.py:184-199): select `.one()`, set the
status, set `error_msg` only when truthy (non-None and nonempty), commit. -/
def update_job_status (db : List DeployJobRow) (job_id : String) (status : JobStatus)
    (error_msg : Option String) : Except DbExn (List DeployJobRow) :=
  match selectOneJob db job_id with
  | .error e => .error e
  | .ok _ =>
    .ok (db.map (fun j =>
      if j.job_id == job_id then
        { j with
          status := status,
          error_msg := match error_msg with
            | some m => if m == "" then j.error_msg else some m
            | none => j.error_msg }
      else j))

/-- crud.create_job (crud.py:201-206): insert a PENDING row. -/
def create_job (db : List DeployJobRow) (job_id robot_id deploy_path deploy_msg : String)
    (now : Nat) : List DeployJobRow :=
  db ++ [{ job_id := job_id, status := .PENDING, robot_id := robot_id,
           deploy_path := deploy_path, deploy_msg := deploy_msg,
           timestamp := now, error_msg := none }]

/-- crud.get_job_by_id (crud.py:208-218): select `.one()`. -/
def get_job_by_id (db : List DeployJobRow) (job_id : String) : Except DbExn DeployJobRow :=
  selectOneJob db job_id

/-! ## Cloud state-message handler (src/app/classes/ota_file_service.py) -/

/-- One entry of a state payload `\x7b job_id : \x7bstatus, error_msg?\x7d \x7d`
(daemon-reported job state).  The `status` field is the raw payload string. -/
structure StateEntry where
  status : String
  error_msg : Option String
deriving DecidableEq

/-- Effects of the cloud handler, in emission order.  `targetUpsert` records
the call to crud.create_or_update_deploy_target with the robot_id and
deploy_path of the stored job row and the `s3_bucket` / `s3_object_name`
values read out of `json.loads(db_job.deploy_msg)`
(ota_file_service.py:108-113). -/
inductive CloudEffect
  | pubDeploy (topic : String) (payload : String)
  | statusUpdate (job_id : String) (status : JobStatus)
  | pubAck (topic : String) (payload : String)
  | targetUpsert (robot_id deploy_path s3_bucket s3_object_name : String)
deriving DecidableEq

/-- Python exceptions that can escape the cloud handler: the `.one()`
exceptions of the uncovered get_job_by_id call, the AttributeError of an
unknown status name, the JSONDecodeError of `json.loads(db_job.deploy_msg)`
on a stored message that is not valid JSON (ota_file_service.py:109), and
the KeyError of a decoded message missing `s3_bucket`/`s3_object_name`. -/
inductive CloudExn
  | noResultFound | multipleResultsFound | attributeError
  | jsonDecodeError | keyError
deriving DecidableEq

def cloudExnOfDb : DbExn → CloudExn
  | .noResultFound => .noResultFound
  | .multipleResultsFound => .multipleResultsFound

/-- `getattr(models.JobStatus, s)` (ota_file_service.py:96): `none` models
the uncaught AttributeError for an unrecognized status string. -/
def parseJobStatus : String → Option JobStatus
  | "PENDING" => some .PENDING
  | "RECEIVED" => some .RECEIVED
  | "COMPLETED" => some .COMPLETED
  | "FAILED" => some .FAILED
  | _ => none

/-- Resend pass (ota_file_service.py:85-90): for each running job whose
job_id is not a key of the payload, republish its stored `deploy_msg`
verbatim on the deploy topic of the robot the message arrived from. -/
def resendEffects (pat : String) (db : List DeployJobRow) (robot_id : String)
    (states : List (String × StateEntry)) : List CloudEffect :=
  (get_running_jobs db robot_id).filterMap (fun job =>
    if states.any (fun e => e.fst == job.job_id) then none
    else some (.pubDeploy (get_deploy_topic pat robot_id) job.deploy_msg))

/-- Processing of one payload entry (ota_file_service.py:92-113): try to
update the job status, catching only NoResultFound; then, keyed on the raw
payload string, publish an ack for COMPLETED/FAILED and upsert the deploy
target for COMPLETED — via get_job_by_id's `.one()`, then
`json.loads(db_job.deploy_msg)` and the `['s3_bucket']`/`['s3_object_name']`
lookups, none of whose exceptions is caught. -/
def processEntry (pat : String) (jobs : List DeployJobRow) (robot_id : String)
    (job_id : String) (entry : StateEntry) :
    List CloudEffect × List DeployJobRow × Option CloudExn :=
  let step1 : List CloudEffect × List DeployJobRow × Option CloudExn :=
    match parseJobStatus entry.status with
    | none => ([], jobs, some .attributeError)
    | some st =>
      match update_job_status jobs job_id st entry.error_msg with
      | .ok jobs2 => ([.statusUpdate job_id st], jobs2, none)
      | .error .noResultFound => ([], jobs, none)
      | .error .multipleResultsFound => ([], jobs, some .multipleResultsFound)
  match step1 with
  | (effs, jobs2, some e) => (effs, jobs2, some e)
  | (effs, jobs2, none) =>
    if entry.status == "COMPLETED" || entry.status == "FAILED" then
      let effs2 := effs ++ [.pubAck (get_ack_topic pat robot_id) job_id]
      if entry.status == "COMPLETED" then
        match get_job_by_id jobs2 job_id with
        | .error e => (effs2, jobs2, some (cloudExnOfDb e))
        | .ok dbj =>
          match parseJsonObj dbj.deploy_msg with
          | none => (effs2, jobs2, some .jsonDecodeError)
          | some info =>
            match lookupField info "s3_bucket", lookupField info "s3_object_name" with
            | some b, some o =>
              (effs2 ++ [.targetUpsert dbj.robot_id dbj.deploy_path b o], jobs2, none)
            | _, _ => (effs2, jobs2, some .keyError)
      else (effs2, jobs2, none)
    else (effs, jobs2, none)

/-- Status/ack/target processing of the whole payload, entry by entry in
payload order; an uncaught exception aborts the remaining entries. -/
def processEntries (pat : String) (robot_id : String) :
    List DeployJobRow → List (String × StateEntry) →
    List CloudEffect × List DeployJobRow × Option CloudExn
  | jobs, [] => ([], jobs, none)
  | jobs, (jid, e) :: rest =>
    match processEntry pat jobs robot_id jid e with
    | (effs, jobs2, some exn) => (effs, jobs2, some exn)
    | (effs, jobs2, none) =>
      let r := processEntries pat robot_id jobs2 rest
      (effs ++ r.fst, r.snd.fst, r.snd.snd)

/-- Result of one invocation of the cloud's state-message callback. -/
structure HandlerResult where
  effects : List CloudEffect
  jobs : List DeployJobRow
  exn : Option CloudExn
deriving DecidableEq

/-- OTAFileService._mqtt_on_message (ota_file_service.py:75-113), after the
topic regex has extracted `robot_id`: the resend pass runs first over the
running jobs, then the per-entry status/ack/target passes run over the
payload. -/
def cloud_on_message (pat : String) (jobs : List DeployJobRow) (robot_id : String)
    (states : List (String × StateEntry)) : HandlerResult :=
  let resends := resendEffects pat jobs robot_id states
  let r := processEntries pat robot_id jobs states
  ⟨resends ++ r.fst, r.snd.fst, r.snd.snd⟩

/-! ## Artifact registry (src/app/classes/models.py File, crud.py) -/

/-- One row of the `files` table (models.File, models.py:35-51).  The JSONB
`file_metadata` document is modeled by its key/value pairs in insertion
order. -/
structure FileRow where
  s3_bucket : String
  s3_object_name : String
  file_name : String
  timestamp : Nat
  robot_id : String
  robot_type : String
  robot_version : String
  deploy_path : String
  sha256 : String
  file_metadata : List (String × String)
  valid : Bool
deriving DecidableEq

/-- An uploaded multipart file part: original filename plus content bytes. -/
structure UploadFile where
  filename : String
  content : List Nat
deriving DecidableEq

/-- schemas.FileCreate (schemas.py:27-37).  `none` models a pydantic field
that was not set by the caller (relevant for `model_dump(exclude_unset)`);
attribute reads fall back to the schema defaults via the accessors below. -/
structure FileCreate where
  s3_bucket : Option String := none
  s3_object_name : Option String := none
  robot_id : Option String := none
  deploy_path : Option String := none
  robot_type : Option String := none
  robot_version : Option String := none
  file_metadata : Option (List (String × String)) := none
deriving DecidableEq

def FileCreate.bucketV (f : FileCreate) : String := f.s3_bucket.getD "files"

def FileCreate.objectV (f : FileCreate) : String := f.s3_object_name.getD ""

def FileCreate.robotIdV (f : FileCreate) : String := f.robot_id.getD ""

def FileCreate.deployPathV (f : FileCreate) : String := f.deploy_path.getD ""

def FileCreate.robotTypeV (f : FileCreate) : String := f.robot_type.getD ""

def FileCreate.robotVersionV (f : FileCreate) : String := f.robot_version.getD ""

def FileCreate.metadataV (f : FileCreate) : List (String × String) := f.file_metadata.getD []

/-- A PostgreSQL jsonb value, as far as this schema stores or binds one.
The `files.file_metadata` column is declared `Dict[str, str] → JSONB`
(models.py:32, models.py:49), so stored values are jsonb objects; a bound
query parameter can also arrive as a jsonb string scalar. -/
inductive JsonbVal
  | str (s : String)
  | obj (m : List (String × String))
deriving DecidableEq

/-- jsonb object normalization: PostgreSQL jsonb does not preserve key
insertion order or duplicates; keys are stored unique and sorted, a
duplicated key keeping its last value. -/
def jsonbNormalize : List (String × String) → List (String × String)
  | [] => []
  | (k, v) :: rest =>
    if rest.any (fun p => p.fst == k) then jsonbNormalize rest
    else List.orderedInsert (fun a b => a.fst ≤ b.fst) (k, v) (jsonbNormalize rest)

/-- The jsonb document stored for a `Dict[str, str]` column value. -/
def jsonbOfDict (m : List (String × String)) : JsonbVal := .obj (jsonbNormalize m)

/-- What a Python `str` compared against a JSONB column binds as:
SQLAlchemy's JSON/JSONB bind processor runs the json serializer over every
bound parameter, a `str` included, so the parameter reaches PostgreSQL as
the jsonb STRING SCALAR holding that text — not as a parsed document. -/
def jsonbStrBind (s : String) : JsonbVal := .str s

/-- Keyword criteria of a crud.get_files `filter_by` call (crud.py:28-43).
The `file_metadata` criterion is the serialized JSON text passed by
upload_a_file as a Python str (api_v1.py:95); the column it is compared
against holds a jsonb document. -/
structure FileQuery where
  s3_bucket : Option String := none
  s3_object_name : Option String := none
  robot_id : Option String := none
  robot_type : Option String := none
  robot_version : Option String := none
  deploy_path : Option String := none
  sha256 : Option String := none
  file_metadata : Option String := none
deriving DecidableEq

def matchOpt (c : Option String) (v : String) : Bool :=
  match c with
  | none => true
  | some s => s == v

/-- The `file_metadata = <str parameter>` criterion as PostgreSQL evaluates
it: the bound string arrives as a jsonb string scalar (see `jsonbStrBind`)
and is compared against the stored jsonb object; jsonb equality between a
string scalar and an object is never true. -/
def matchMeta (c : Option String) (m : List (String × String)) : Bool :=
  match c with
  | none => true
  | some s => jsonbStrBind s == jsonbOfDict m

def rowMatches (q : FileQuery) (r : FileRow) : Bool :=
  matchOpt q.s3_bucket r.s3_bucket &&
  matchOpt q.s3_object_name r.s3_object_name &&
  matchOpt q.robot_id r.robot_id &&
  matchOpt q.robot_type r.robot_type &&
  matchOpt q.robot_version r.robot_version &&
  matchOpt q.deploy_path r.deploy_path &&
  matchOpt q.sha256 r.sha256 &&
  matchMeta q.file_metadata r.file_metadata

/-- crud.get_files (crud.py:28-43): filter, then order by timestamp
descending. -/
def get_files (db : List FileRow) (q : FileQuery) : List FileRow :=
  List.insertionSort (fun a b => b.timestamp ≤ a.timestamp) (db.filter (rowMatches q))

/-- crud.create_file (crud.py:45-75): insert a row with `valid=True`. -/
def create_file (db : List FileRow) (file : FileCreate) (file_name : String)
    (sha256 : String) (timestamp : Nat) : List FileRow :=
  db ++ [{ s3_bucket := file.bucketV, s3_object_name := file.objectV,
           file_name := file_name, timestamp := timestamp,
           robot_id := file.robotIdV, robot_type := file.robotTypeV,
           robot_version := file.robotVersionV, deploy_path := file.deployPathV,
           sha256 := sha256, file_metadata := file.metadataV, valid := true }]

/-- crud.update_file on one row (crud.py:77-107): apply every SET field of
`file_info` (`model_dump(exclude_unset=True)`), then the optional arguments,
each guarded by Python truthiness (empty strings are falsy; `valid` is
compared against None). -/
def update_file (r : FileRow) (file_info : FileCreate) (timestamp : Option Nat)
    (file_name : Option String) (sha256 : Option String) (valid : Option Bool) : FileRow :=
  let r := { r with
    s3_bucket := file_info.s3_bucket.getD r.s3_bucket,
    s3_object_name := file_info.s3_object_name.getD r.s3_object_name,
    robot_id := file_info.robot_id.getD r.robot_id,
    deploy_path := file_info.deploy_path.getD r.deploy_path,
    robot_type := file_info.robot_type.getD r.robot_type,
    robot_version := file_info.robot_version.getD r.robot_version,
    file_metadata := file_info.file_metadata.getD r.file_metadata }
  let r := match timestamp with
    | some t => { r with timestamp := t }
    | none => r
  let r := match sha256 with
    | some s => if s == "" then r else { r with sha256 := s }
    | none => r
  let r := match file_name with
    | some s => if s == "" then r else { r with file_name := s }
    | none => r
  match valid with
  | some v => { r with valid := v }
  | none => r

/-- Replace the first element satisfying `p` (the ORM commit of a mutated
row object; the `files` primary key is unique, so at most one row matches). -/
def updateFirst (p : α → Bool) (f : α → α) : List α → List α
  | [] => []
  | x :: xs => if p x then f x :: xs else x :: updateFirst p f xs

/-- Idealized collision-free model of the streamed `hashlib.sha256`
hexdigest of api_v1.py:79-85: deterministic in, and injective on, the
content bytes. -/
def sha256Hex (content : List Nat) : String :=
  "sha256:" ++ toString content

/-- Object-store effects of the cloud handlers. -/
inductive S3Effect
  | upload (bucket object : String) (content : List Nat)
deriving DecidableEq

inductive TaskState | UPLOADED | PENDING | FAILED
deriving DecidableEq

/-- schemas.FileUploadResponse (schemas.py:68-72). -/
structure FileUploadResponse where
  s3_bucket : String
  s3_object_name : String
  robot_id : String
  deploy_path : String
  filename : String
  state : TaskState
  error_msg : Option String
deriving DecidableEq

/-- What upload_a_file returns: a response model on the upload/dedup paths,
the updated row on the update path, and IndexError for `db_files[0]` on an
empty lookup in the update path. -/
inductive UploadOutcome
  | resp (r : FileUploadResponse)
  | row (r : FileRow)
  | indexError
deriving DecidableEq

/-- Result of one upload_a_file call: its return value, the (in-place
mutated) `file_info`, the resulting `files` table, and the object-store
uploads performed. -/
structure UploadResult where
  outcome : UploadOutcome
  info : FileCreate
  db : List FileRow
  uploads : List S3Effect
deriving DecidableEq

/-- api_v1.upload_a_file (api_v1.py:54-119).  `uuid` is the value drawn from
`uuid.uuid4()` when a fresh object name is needed.  Object-store and
database errors are not modeled: every attempted upload succeeds. -/
def upload_a_file (file : UploadFile) (file_info : FileCreate) (timestamp : Nat)
    (db : List FileRow) (uuid : String) (update : Bool) : UploadResult :=
  let user_provided_object_name := file_info.objectV
  let fp : UploadFile × FileCreate :=
    if file_info.objectV == "" then
      if file.filename != "" then
        (file, { file_info with s3_object_name := some (file.filename ++ "_" ++ uuid) })
      else
        ({ file with filename := uuid }, { file_info with s3_object_name := some uuid })
    else (file, file_info)
  let file := fp.fst
  let file_info := fp.snd
  let response : FileUploadResponse :=
    { s3_bucket := file_info.bucketV, s3_object_name := file_info.objectV,
      robot_id := file_info.robotIdV, deploy_path := file_info.deployPathV,
      filename := file.filename, state := .UPLOADED, error_msg := none }
  let db_file0 := get_files db { s3_bucket := some file_info.bucketV,
                                 s3_object_name := some file_info.objectV }
  if db_file0 != [] && !update then
    let failed : FileUploadResponse :=
      { response with
        state := .FAILED,
        error_msg := some ("Object " ++ file_info.objectV ++ " in bucket " ++
                           file_info.bucketV ++ " already exists.") }
    { outcome := .resp failed, info := file_info, db := db, uploads := [] }
  else
    let sha256_value := sha256Hex file.content
    let q : FileQuery :=
      { s3_bucket := some file_info.bucketV, sha256 := some sha256_value,
        robot_id := some file_info.robotIdV, deploy_path := some file_info.deployPathV,
        robot_type := some file_info.robotTypeV, robot_version := some file_info.robotVersionV,
        file_metadata := some (jsonDumps file_info.metadataV),
        s3_object_name := if user_provided_object_name != "" then
          some user_provided_object_name else none }
    match get_files db q with
    | dbf :: _ =>
      { outcome := .resp { response with s3_object_name := dbf.s3_object_name },
        info := { file_info with s3_object_name := some dbf.s3_object_name },
        db := db, uploads := [] }
    | [] =>
      let uploads := [S3Effect.upload file_info.bucketV file_info.objectV file.content]
      if update then
        match get_files db { s3_bucket := some file_info.bucketV,
                             s3_object_name := some file_info.objectV } with
        | r :: _ =>
          let r2 := update_file r file_info (some timestamp) (some file.filename)
                      (some sha256_value) none
          { outcome := .row r2, info := file_info,
            db := updateFirst (fun x => x.s3_bucket == r.s3_bucket &&
                    x.s3_object_name == r.s3_object_name) (fun _ => r2) db,
            uploads := uploads }
        | [] => { outcome := .indexError, info := file_info, db := db, uploads := uploads }
      else
        { outcome := .resp response, info := file_info,
          db := create_file db file_info file.filename sha256_value timestamp,
          uploads := uploads }

/-! ## Cloud deploy handlers (src/app/classes/api_v1.py, ota_file_service.py) -/

/-- OTAFileService.deploy_file (ota_file_service.py:155-168): draw a fresh
job_id, serialize the deploy message, insert a PENDING job row, publish the
message on the hard-coded topic `ota/robot_id/deploy`.  Returns the job_id,
the new job table, and the publish effect. -/
def deploy_file (jobs : List DeployJobRow) (uuid : String) (now : Nat)
    (s3_bucket s3_object_name robot_id deploy_path : String) :
    String × List DeployJobRow × List CloudEffect :=
  let job_id := uuid
  let deploy_msg := jsonDumps [("job_id", job_id), ("s3_bucket", s3_bucket),
                               ("s3_object_name", s3_object_name), ("deploy_path", deploy_path)]
  (job_id, create_job jobs job_id robot_id deploy_path deploy_msg now,
   [.pubDeploy ("ota/" ++ robot_id ++ "/deploy") deploy_msg])

/-- schemas.FileDeployResponse (schemas.py:74-77). -/
structure FileDeployResponse where
  s3_bucket : String
  s3_object_name : String
  robot_id : String
  deploy_path : String
  filename : String
  state : TaskState
  error_msg : Option String
  job_id : String
deriving DecidableEq

/-- Accumulated state of the file_deploy loop. -/
structure DeployBatchState where
  db : List FileRow
  jobs : List DeployJobRow
  uploads : List S3Effect
  publishes : List CloudEffect
  responses : List FileDeployResponse
deriving DecidableEq

/-- Fallback used for the unreachable non-`resp` outcomes of upload_a_file
with `update=False`. -/
def dummyUploadResponse : FileUploadResponse :=
  { s3_bucket := "", s3_object_name := "", robot_id := "", deploy_path := "",
    filename := "", state := .FAILED, error_msg := none }

def UploadOutcome.respOf : UploadOutcome → FileUploadResponse
  | .resp r => r
  | _ => dummyUploadResponse

/-- One iteration of the file_deploy loop (api_v1.py:239-257).  NOTE, from
the source: when `robot_id` is missing, lines 243-245 set FAILED and the
error message on `upload_result`, but `deploy_result` — constructed on line
241 as a copy of `upload_result` — is what gets appended, so the appended
entry keeps state UPLOADED.  The broker/database errors of the deploy call
are not modeled: deploy_file always succeeds. -/
def deployOne (timestamp : Nat) (uuids : Nat → String) (idx : Nat)
    (st : DeployBatchState) (file : UploadFile) (file_info : FileCreate) :
    DeployBatchState :=
  let ur := upload_a_file file file_info timestamp st.db (uuids (2 * idx)) false
  let resp := ur.outcome.respOf
  let deploy_result : FileDeployResponse :=
    { s3_bucket := resp.s3_bucket, s3_object_name := resp.s3_object_name,
      robot_id := resp.robot_id, deploy_path := resp.deploy_path,
      filename := resp.filename, state := resp.state, error_msg := resp.error_msg,
      job_id := "" }
  if resp.state == TaskState.UPLOADED then
    if ur.info.robotIdV == "" then
      let _upload_result_failed : FileUploadResponse :=
        { resp with state := .FAILED, error_msg := some "robot_id is required" }
      { st with db := ur.db, uploads := st.uploads ++ ur.uploads,
                responses := st.responses ++ [deploy_result] }
    else
      let d := deploy_file st.jobs (uuids (2 * idx + 1)) timestamp ur.info.bucketV
                 ur.info.objectV ur.info.robotIdV ur.info.deployPathV
      let pendingResp : FileDeployResponse :=
        { deploy_result with state := .PENDING, job_id := d.fst }
      { st with db := ur.db, uploads := st.uploads ++ ur.uploads,
                jobs := d.snd.fst, publishes := st.publishes ++ d.snd.snd,
                responses := st.responses ++ [pendingResp] }
  else
    { st with db := ur.db, uploads := st.uploads ++ ur.uploads,
              responses := st.responses ++ [deploy_result] }

def deployLoop (timestamp : Nat) (uuids : Nat → String) :
    Nat → DeployBatchState → List (UploadFile × FileCreate) → DeployBatchState
  | _, st, [] => st
  | idx, st, (f, i) :: rest =>
    deployLoop timestamp uuids (idx + 1) (deployOne timestamp uuids idx st f i) rest

/-- Result of POST /file/deploy: the per-file entries, whether the endpoint
raises HTTP 400 (some entry FAILED), and the final tables and effects. -/
structure DeployBatchResult where
  responses : List FileDeployResponse
  http400 : Bool
  db : List FileRow
  jobs : List DeployJobRow
  uploads : List S3Effect
  publishes : List CloudEffect
deriving DecidableEq

/-- api_v1.file_deploy (api_v1.py:222-264).  NOTE: unlike file_upload there
is no length check; the loop runs over `zip(files, file_info_list.file_list)`. -/
def file_deploy (files : List UploadFile) (file_info_list : List FileCreate)
    (db : List FileRow) (jobs : List DeployJobRow) (timestamp : Nat)
    (uuids : Nat → String) : DeployBatchResult :=
  let st := deployLoop timestamp uuids 0 ⟨db, jobs, [], [], []⟩ (files.zip file_info_list)
  ⟨st.responses, st.responses.any (fun r => r.state == TaskState.FAILED),
   st.db, st.jobs, st.uploads, st.publishes⟩

/-- Result of POST /file/upload (api_v1.py:164-194): the length-mismatch 400
comes before any processing; otherwise the per-file responses with the
aggregate 400 flag. -/
inductive UploadBatchOut
  | mismatchError
  | batch (responses : List FileUploadResponse) (http400 : Bool)
          (db : List FileRow) (uploads : List S3Effect)
deriving DecidableEq

def uploadLoop (timestamp : Nat) (uuids : Nat → String) :
    Nat → List FileRow → List S3Effect → List FileUploadResponse →
    List (UploadFile × FileCreate) →
    List FileRow × List S3Effect × List FileUploadResponse
  | _, db, ups, resps, [] => (db, ups, resps)
  | idx, db, ups, resps, (f, i) :: rest =>
    let ur := upload_a_file f i timestamp db (uuids idx) false
    uploadLoop timestamp uuids (idx + 1) ur.db (ups ++ ur.uploads)
      (resps ++ [ur.outcome.respOf]) rest

/-- api_v1.file_upload (api_v1.py:164-194): reject a file/info count
mismatch with HTTP 400 before any upload. -/
def file_upload (files : List UploadFile) (file_info_list : List FileCreate)
    (db : List FileRow) (timestamp : Nat) (uuids : Nat → String) : UploadBatchOut :=
  if files.length != file_info_list.length then .mismatchError
  else
    let r := uploadLoop timestamp uuids 0 db [] [] (files.zip file_info_list)
    .batch r.snd.snd (r.snd.snd.any (fun x => x.state == TaskState.FAILED)) r.fst r.snd.fst

/-- Result of PATCH /file/update. -/
inductive PatchOut
  | notFound400
  | updatedRow (r : FileRow) (db : List FileRow)
  | uploaded (u : UploadResult)
deriving DecidableEq

/-- api_v1.file_update (api_v1.py:197-220): look the row up by bucket and
object name, 400 when absent; with a file part delegate to upload_a_file in
update mode, otherwise crud.update_file with the current time. -/
def file_update (db : List FileRow) (file_info : FileCreate) (filePart : Option UploadFile)
    (now : Nat) (uuid : String) : PatchOut :=
  match get_files db { s3_bucket := some file_info.bucketV,
                       s3_object_name := some file_info.objectV } with
  | [] => .notFound400
  | r :: _ =>
    match filePart with
    | some f => .uploaded (upload_a_file f file_info now db uuid true)
    | none =>
      let r2 := update_file r file_info (some now) none none none
      .updatedRow r2 (updateFirst (fun x => x.s3_bucket == r.s3_bucket &&
        x.s3_object_name == r.s3_object_name) (fun _ => r2) db)

/-- api_v1.file_validate (api_v1.py:358-371): look the row up, 404 when
absent, else `crud.update_file(db, row, FileCreate(), valid=True)` — note no
timestamp argument is passed. -/
def file_validate (db : List FileRow) (s3_bucket s3_object_name : String) :
    Option (FileRow × List FileRow) :=
  match get_files db { s3_bucket := some s3_bucket, s3_object_name := some s3_object_name } with
  | [] => none
  | r :: _ =>
    let r2 := update_file r {} none none none (some true)
    some (r2, updateFirst (fun x => x.s3_bucket == r.s3_bucket &&
      x.s3_object_name == r.s3_object_name) (fun _ => r2) db)

/-- api_v1.file_invalidate (api_v1.py:373-386): as file_validate with
`valid=False`, again without a timestamp argument. -/
def file_invalidate (db : List FileRow) (s3_bucket s3_object_name : String) :
    Option (FileRow × List FileRow) :=
  match get_files db { s3_bucket := some s3_bucket, s3_object_name := some s3_object_name } with
  | [] => none
  | r :: _ =>
    let r2 := update_file r {} none none none (some false)
    some (r2, updateFirst (fun x => x.s3_bucket == r.s3_bucket &&
      x.s3_object_name == r.s3_object_name) (fun _ => r2) db)

/-! ## Robot daemon (src/daemon/classes/daemon.py) -/

/-- daemon.JobState (daemon.py:51-53): status defaults to RECEIVED. -/
structure DaemonJobState where
  status : String
  error_msg : Option String
deriving DecidableEq

/-- daemon.DeployJob (daemon.py:45-49): the validated deploy payload. -/
structure DaemonDeployJob where
  job_id : String
  s3_bucket : String
  s3_object_name : String
  deploy_path : String
deriving DecidableEq

/-- Daemon-local mutable state: the in-memory job map (insertion-ordered
dict `_jobs`) and the deploy queue. -/
structure DaemonState where
  jobs : List (String × DaemonJobState)
  deployQueue : List DaemonDeployJob
deriving DecidableEq

/-- A deploy-topic payload: either text that is not valid JSON, or a flat
JSON object with string fields. -/
inductive MqttPayload
  | invalid (raw : String)
  | obj (fields : List (String × String))
deriving DecidableEq

/-- Python exceptions that can escape the daemon's message callback. -/
inductive DaemonExn
  | jsonDecodeError
  | unboundLocalError
deriving DecidableEq

inductive DaemonEffect
  | publishState (snapshot : List (String × DaemonJobState))
deriving DecidableEq

/-- Pydantic validation `DeployJob(**job_info)` (daemon.py:142): all four
fields must be present. -/
def parseDeployJob (fields : List (String × String)) : Option DaemonDeployJob :=
  match lookupField fields "job_id", lookupField fields "s3_bucket",
        lookupField fields "s3_object_name", lookupField fields "deploy_path" with
  | some j, some b, some o, some d => some ⟨j, b, o, d⟩
  | _, _, _, _ => none

/-- Deploy branch of OTAFileDaemon._mqtt_on_message (daemon.py:139-148).
NOTE, from the source: `json.loads` on line 140 is outside the try block, so
text that is not JSON raises json.JSONDecodeError out of the callback; and
the `except ValidationError` branch on lines 143-144 logs but does not
return, so line 145 then reads the unbound local `job` and raises
UnboundLocalError.  In both cases the job map and queue are untouched. -/
def daemon_on_message_deploy (s : DaemonState) (payload : MqttPayload) :
    DaemonState × Option DaemonExn :=
  match payload with
  | .invalid _ => (s, some .jsonDecodeError)
  | .obj fields =>
    match parseDeployJob fields with
    | none => (s, some .unboundLocalError)
    | some job =>
      if s.jobs.any (fun p => p.fst == job.job_id) then (s, none)
      else ({ jobs := s.jobs ++ [(job.job_id, ⟨"RECEIVED", none⟩)],
              deployQueue := s.deployQueue ++ [job] }, none)

/-- Ack branch of OTAFileDaemon._mqtt_on_message (daemon.py:150-153): delete
the job_id from the map when present. -/
def daemon_on_message_ack (s : DaemonState) (payload : String) : DaemonState :=
  if s.jobs.any (fun p => p.fst == payload) then
    { s with jobs := s.jobs.filter (fun p => p.fst != payload) }
  else s

/-- The defaultdict access `self._jobs[k]` followed by a mutation: update
the entry in place when present, else create the default
`JobState(status='RECEIVED')` and mutate that. -/
def upsertJob (jobs : List (String × DaemonJobState)) (k : String)
    (f : DaemonJobState → DaemonJobState) : List (String × DaemonJobState) :=
  if jobs.any (fun p => p.fst == k) then
    jobs.map (fun p => if p.fst == k then (p.fst, f p.snd) else p)
  else jobs ++ [(k, f ⟨"RECEIVED", none⟩)]

/-- One iteration of OTAFileDaemon._deploy_files (daemon.py:155-172): pop
the queue head and record the download outcome («ok» or an error message)
into the job map.  With an empty queue, `queue.get()` blocks and no step
happens. -/
def daemon_worker_step (s : DaemonState) (outcome : Except String Unit) : DaemonState :=
  match s.deployQueue with
  | [] => s
  | job :: rest =>
    match outcome with
    | .ok _ =>
      { jobs := upsertJob s.jobs job.job_id (fun st => { st with status := "COMPLETED" }),
        deployQueue := rest }
    | .error e =>
      { jobs := upsertJob s.jobs job.job_id
          (fun st => { st with status := "FAILED", error_msg := some e }),
        deployQueue := rest }

/-- The daemon events that touch the job map, as a single step relation. -/
inductive DaemonEvent
  | deployMsg (payload : MqttPayload)
  | ackMsg (payload : String)
  | workerStep (outcome : Except String Unit)
  | reportTick

/-- One scheduling step of the daemon: the broker callback on either topic
(daemon.py:136-153), one worker iteration (daemon.py:155-172), or one
reporter tick (daemon.py:222-224, publishing the whole map). -/
def daemonStep (s : DaemonState) : DaemonEvent → DaemonState × List DaemonEffect × Option DaemonExn
  | .deployMsg p =>
    let r := daemon_on_message_deploy s p
    (r.fst, [], r.snd)
  | .ackMsg p => (daemon_on_message_ack s p, [], none)
  | .workerStep oc => (daemon_worker_step s oc, [], none)
  | .reportTick => (s, [.publishState s.jobs], none)

/-- The job a cloud effect is keyed on: the updated row's job_id for a
status update, the raw ack payload for an ack, and none otherwise. -/
def effJob : CloudEffect → Option String
  | .statusUpdate j _ => some j
  | .pubAck _ j => some j
  | _ => none

/-! ## Concrete fixtures used by the claim theorems -/

/-- A PENDING job belonging to robot_b, used to probe the resend pass. -/
def crossRobotJob : DeployJobRow :=
  { job_id := "j1", status := .PENDING, robot_id := "robot_b", deploy_path := "/tmp/f",
    deploy_msg := "m1", timestamp := 1, error_msg := none }

/-- Two PENDING jobs of robot_a, used to probe pass ordering.  Their stored
deploy messages are in the serialization deploy_file writes, so the target
pass decodes them without raising. -/
def twoJobsA : List DeployJobRow :=
  [{ job_id := "j1", status := .PENDING, robot_id := "robot_a", deploy_path := "/p1",
     deploy_msg := jsonDumps [("job_id", "j1"), ("s3_bucket", "b"),
       ("s3_object_name", "o1"), ("deploy_path", "/p1")],
     timestamp := 1, error_msg := none },
   { job_id := "j2", status := .PENDING, robot_id := "robot_a", deploy_path := "/p2",
     deploy_msg := jsonDumps [("job_id", "j2"), ("s3_bucket", "b"),
       ("s3_object_name", "o2"), ("deploy_path", "/p2")],
     timestamp := 2, error_msg := none }]

/-- A payload reporting both jobs of `twoJobsA` COMPLETED. -/
def twoCompleted : List (String × StateEntry) :=
  [("j1", { status := "COMPLETED", error_msg := none }),
   ("j2", { status := "COMPLETED", error_msg := none })]

/-- The same two jobs with stored deploy messages that are NOT valid JSON,
used to probe the uncaught `json.loads` failure of the target pass. -/
def twoJobsBadMsg : List DeployJobRow :=
  [{ job_id := "j1", status := .PENDING, robot_id := "robot_a", deploy_path := "/p1",
     deploy_msg := "m1", timestamp := 1, error_msg := none },
   { job_id := "j2", status := .PENDING, robot_id := "robot_a", deploy_path := "/p2",
     deploy_msg := "m2", timestamp := 2, error_msg := none }]

/-- The test uuid stream: the n-th fresh uuid4 value. -/
def uuidStream : Nat → String := fun n => "u" ++ toString n

/-- An artifact row with timestamp 5, used to probe the timestamp bump. -/
def rowTs5 : FileRow :=
  { s3_bucket := "files", s3_object_name := "o", file_name := "f", timestamp := 5,
    robot_id := "", robot_type := "", robot_version := "", deploy_path := "",
    sha256 := "h", file_metadata := [], valid := true }

/-- A daemon state with one received job, used to probe malformed payloads. -/
def daemonS0 : DaemonState :=
  { jobs := [("k", ⟨"RECEIVED", none⟩)], deployQueue := [] }

/-! ## Claim theorems -/

/-- C1: the spec says the handler queries exactly the sender robot's running
jobs and never republishes other robots' jobs.  The code violates this:
crud.get_running_jobs discards its robot_id filter (the line-177 statement
is dead), so a state message from robot_a republishes robot_b's pending
job's deploy_msg on robot_a's deploy topic. -/
theorem C1_cross_robot_job_resent :
    get_running_jobs [crossRobotJob] "robot_a" = [crossRobotJob] ∧
    crossRobotJob.robot_id = "robot_b" ∧
    (cloud_on_message "ota/<robot_id>/<operation>" [crossRobotJob] "robot_a" []).effects =
      [.pubDeploy "ota/robot_a/deploy" crossRobotJob.deploy_msg] := by
  refine ⟨rfl, rfl, rfl⟩

/-- C2: the spec says an unknown job_id in a state payload is logged and
otherwise ignored, with no ack and no exception.  The code violates this for
terminal statuses: the try block covers only update_job_status, so for an
unknown COMPLETED job_id it publishes an ack and then get_job_by_id's
`.one()` raises an uncaught NoResultFound. -/
theorem C2_unknown_job_ack_and_raise :
    cloud_on_message "ota/<robot_id>/<operation>" [] "robot_a"
        [("jX", { status := "COMPLETED", error_msg := none })] =
      { effects := [.pubAck "ota/robot_a/ack" "jX"], jobs := [],
        exn := some .noResultFound } := by
  rfl

/-- C3 counterexample: the four passes do NOT run as whole passes.  With two
COMPLETED entries whose stored deploy messages decode cleanly, the trace
interleaves status update, ack and target upsert per entry, so the ack for
j1 (index 1) precedes the status update for j2 (index 3), refuting «all
job-status updates, then all acks, then all DeployTarget updates». -/
theorem C3_ack_before_later_status_update :
    (cloud_on_message "ota/<robot_id>/<operation>" twoJobsA "robot_a" twoCompleted).effects =
      [.statusUpdate "j1" .COMPLETED,
       .pubAck "ota/robot_a/ack" "j1",
       .targetUpsert "robot_a" "/p1" "b" "o1",
       .statusUpdate "j2" .COMPLETED,
       .pubAck "ota/robot_a/ack" "j2",
       .targetUpsert "robot_a" "/p2" "b" "o2"] ∧
    (cloud_on_message "ota/<robot_id>/<operation>" twoJobsA "robot_a" twoCompleted).effects.get
        ⟨1, by decide⟩ = .pubAck "ota/robot_a/ack" "j1" ∧
    (cloud_on_message "ota/<robot_id>/<operation>" twoJobsA "robot_a" twoCompleted).effects.get
        ⟨3, by decide⟩ = .statusUpdate "j2" .COMPLETED := by
  refine ⟨rfl, rfl, rfl⟩

/-- When a COMPLETED entry's stored deploy_msg is not valid JSON, the target
pass raises JSONDecodeError out of the handler right after that entry's
status update and ack: no deploy-target upsert is recorded and the second
payload entry is never processed (its job row stays PENDING). -/
theorem cloud_bad_deploy_msg_aborts :
    cloud_on_message "ota/<robot_id>/<operation>" twoJobsBadMsg "robot_a" twoCompleted =
      { effects := [.statusUpdate "j1" .COMPLETED, .pubAck "ota/robot_a/ack" "j1"],
        jobs := [{ job_id := "j1", status := .COMPLETED, robot_id := "robot_a",
                   deploy_path := "/p1", deploy_msg := "m1", timestamp := 1,
                   error_msg := none },
                 { job_id := "j2", status := .PENDING, robot_id := "robot_a",
                   deploy_path := "/p2", deploy_msg := "m2", timestamp := 2,
                   error_msg := none }],
        exn := some .jsonDecodeError } := by
  rfl

/-- C5: the spec says a deploy entry whose upload succeeds but whose
robot_id is empty is returned FAILED with an error (hence HTTP 400), with no
job row and no publish.  The code creates no job and publishes nothing, but
lines 243-245 set FAILED on the discarded upload_result instead of the
appended deploy_result, so the entry is returned UPLOADED and the endpoint
returns 200. -/
theorem C5_missing_robot_id_entry_stays_uploaded :
    file_deploy [⟨"f", [1]⟩] [{ robot_id := some "", deploy_path := some "/tmp/x" }]
        [] [] 0 uuidStream =
      { responses := [{ s3_bucket := "files", s3_object_name := "f_u0", robot_id := "",
                        deploy_path := "/tmp/x", filename := "f", state := .UPLOADED,
                        error_msg := none, job_id := "" }],
        http400 := false,
        db := [{ s3_bucket := "files", s3_object_name := "f_u0", file_name := "f",
                 timestamp := 0, robot_id := "", robot_type := "", robot_version := "",
                 deploy_path := "/tmp/x", sha256 := sha256Hex [1], file_metadata := [],
                 valid := true }],
        jobs := [], uploads := [.upload "files" "f_u0" [1]], publishes := [] } := by
  rfl

/-- C6: the spec says malformed deploy payloads are logged and dropped
without raising.  The code leaves the job map and queue unchanged but does
raise: json.loads sits outside the try block, so non-JSON raises
JSONDecodeError, and the ValidationError handler does not return, so a JSON
object missing required fields hits the unbound local `job` and raises
UnboundLocalError. -/
theorem C6_malformed_deploy_payload_raises :
    daemonStep daemonS0 (.deployMsg (.invalid "oops")) =
      (daemonS0, [], some .jsonDecodeError) ∧
    daemonStep daemonS0 (.deployMsg (.obj [("job_id", "j1")])) =
      (daemonS0, [], some .unboundLocalError) := by
  refine ⟨rfl, rfl⟩

/-- C7: topic generation is not injective over all robot_id strings,
because the sequential str.replace calls let the `<operation>` substitution
rescan text inserted by the `<robot_id>` substitution: under the accepted
default pattern, the distinct pairs («x<operation>», deploy) and
(«xdeploy», deploy) produce the same topic.  The cloud relies on topics
determining the pair: it recovers robot_id by matching the incoming topic
against the state-topic pattern (ota_file_service.py:77-81). -/
theorem C7_topic_collision :
    validTopicPattern defaultTopicPattern = true ∧
    ("x<operation>" : String) ≠ "xdeploy" ∧
    topicFor defaultTopicPattern "x<operation>".data .deploy =
      topicFor defaultTopicPattern "xdeploy".data .deploy := by
  refine ⟨by decide, by decide, rfl⟩

/-- C8 counterexample: PUT /file/invalidate updates the row (valid flips)
but passes no timestamp to crud.update_file, so the row keeps its old
timestamp instead of being bumped to the time of the update. -/
theorem C8_invalidate_keeps_timestamp :
    file_invalidate [rowTs5] "files" "o" =
      some ({ rowTs5 with valid := false }, [{ rowTs5 with valid := false }]) ∧
    rowTs5.valid = true ∧ rowTs5.timestamp = 5 := by
  refine ⟨rfl, rfl, rfl⟩

/-! ## Topic substitution lemmas -/

theorem replaceFuel_nil (pat rep : List Char) : ∀ n, replaceFuel n [] pat rep = []
  | 0 => rfl
  | _ + 1 => rfl

theorem replaceFuel_skip (c : Char) (s pat rep : List Char)
    (h : pat.isPrefixOf (c :: s) = false) (n : Nat) :
    replaceFuel (n + 1) (c :: s) pat rep = c :: replaceFuel n s pat rep := by
  simp [replaceFuel, h]

/-- With enough fuel the exact fuel value is irrelevant. -/
theorem replaceFuel_fuel_eq (pat rep : List Char) (hpat : pat ≠ []) :
    ∀ n m s, s.length ≤ n → s.length ≤ m →
      replaceFuel n s pat rep = replaceFuel m s pat rep := by
  intro n
  induction n with
  | zero =>
    intro m s hn _
    have hs : s = [] := List.eq_nil_of_length_eq_zero (Nat.le_zero.mp hn)
    subst hs
    simp [replaceFuel_nil]
  | succ n ih =>
    intro m s hn hm
    match s with
    | [] => simp [replaceFuel_nil]
    | c :: rest =>
      match m with
      | 0 => exact absurd hm (by simp)
      | m + 1 =>
        have hplen : 1 ≤ pat.length := List.length_pos.mpr hpat
        simp only [List.length_cons] at hn hm
        cases hb : pat.isPrefixOf (c :: rest) with
        | true =>
          have hlen : ((c :: rest).drop pat.length).length ≤ n := by
            simp only [List.length_drop, List.length_cons]; omega
          have hlen2 : ((c :: rest).drop pat.length).length ≤ m := by
            simp only [List.length_drop, List.length_cons]; omega
          simp only [replaceFuel, hb, if_true]
          rw [ih m _ hlen hlen2]
        | false =>
          simp only [replaceFuel, hb, Bool.false_eq_true, if_false]
          rw [ih m rest (by omega) (by omega)]

/-- The first substitution on the default pattern splices the robot id
between `ota/` and `/<operation>`. -/
theorem firstReplace_default (r : List Char) :
    replaceAll defaultTopicPattern robotToken r =
      "ota/".data ++ (r ++ '/' :: operationToken) := rfl

/-- The second substitution on `r ++ "/<operation>"` replaces exactly the
final occurrence when `r` itself contains no `<operation>`. -/
theorem replaceOp_tail (o : List Char) :
    ∀ (r : List Char) (n : Nat), r.length + 12 ≤ n → ¬ operationToken <:+: r →
      replaceFuel n (r ++ '/' :: operationToken) operationToken o = r ++ '/' :: o := by
  intro r
  induction r with
  | nil =>
    intro n hn _
    have h12 : (('/' :: operationToken) : List Char).length ≤ n := by
      simp only [List.length_cons]
      simpa using hn
    rw [List.nil_append]
    rw [replaceFuel_fuel_eq operationToken o (by decide) n 12 _ h12 (by decide)]
    have hc : replaceFuel 12 ('/' :: operationToken) operationToken o = '/' :: (o ++ []) := rfl
    rw [hc, List.append_nil, List.nil_append]
  | cons c r' ih =>
    intro n hn hinf
    obtain ⟨n', rfl⟩ : ∃ n', n = n' + 1 := ⟨n - 1, by omega⟩
    have hfalse : operationToken.isPrefixOf (c :: (r' ++ '/' :: operationToken)) = false := by
      rw [Bool.eq_false_iff]
      intro htrue
      have hpfx : operationToken <+: ((c :: r') ++ '/' :: operationToken) := by
        rw [List.cons_append]
        exact List.isPrefixOf_iff_prefix.mp htrue
      rcases List.prefix_or_prefix_of_prefix hpfx
          ( List.prefix_append (c :: r') ('/' :: operationToken)) with hp | hp
      · exact hinf hp.isInfix
      · obtain ⟨q, hq⟩ := hp
        match q, hq with
        | [], hq =>
          rw [List.append_nil] at hq
          exact hinf (hq ▸ List.infix_rfl)
        | d :: q', hq =>
          have hsub : ((d :: q') : List Char) <+: ('/' :: operationToken) :=
            ( List.prefix_append_right_inj (c :: r')).mp (hq ▸ hpfx)
          obtain ⟨t, ht⟩ := hsub
          rw [List.cons_append] at ht
          have hd : d = '/' := (List.cons.injEq _ _ _ _).mp ht |>.1
          have hmem : '/' ∈ operationToken := by
            rw [← hq, hd]
            exact List.mem_append_right _ (List.mem_cons_self _ _)
          exact absurd hmem (by decide)
    rw [List.cons_append, replaceFuel_skip _ _ _ _ hfalse]
    have hr' : ¬ operationToken <:+: r' := fun h => hinf (List.infix_cons h)
    rw [ih n' (by simp only [List.length_cons] at hn; omega) hr', List.cons_append]

/-- Closed form of topic generation under the default pattern for robot ids
free of the `<operation>` literal. -/
theorem topicFor_default (r : List Char) (op : MqttOp)
    (hinf : ¬ operationToken <:+: r) :
    topicFor defaultTopicPattern r op = "ota/".data ++ (r ++ '/' :: op.text) := by
  unfold topicFor substituteTopic
  rw [firstReplace_default]
  show replaceAll ('o' :: 't' :: 'a' :: '/' :: (r ++ '/' :: operationToken))
    operationToken op.text = "ota/".data ++ (r ++ '/' :: op.text)
  unfold replaceAll
  simp only [List.length_cons]
  rw [replaceFuel_skip 'o' ('t' :: 'a' :: '/' :: (r ++ '/' :: operationToken))
        operationToken op.text rfl,
      replaceFuel_skip 't' ('a' :: '/' :: (r ++ '/' :: operationToken))
        operationToken op.text rfl,
      replaceFuel_skip 'a' ('/' :: (r ++ '/' :: operationToken))
        operationToken op.text rfl,
      replaceFuel_skip '/' (r ++ '/' :: operationToken)
        operationToken op.text rfl]
  have hop : operationToken.length = 11 := rfl
  rw [replaceOp_tail op.text r _
        (by simp only [List.length_append, List.length_cons, hop]; omega) hinf]
  rfl

/-! ## Daemon job-map lemmas for C9 -/

theorem upsertJob_keys (jobs : List (String × DaemonJobState)) (k : String)
    (f : DaemonJobState → DaemonJobState) (j : String) (h : j ∈ jobs.map Prod.fst) :
    j ∈ (upsertJob jobs k f).map Prod.fst := by
  unfold upsertJob
  by_cases hmem : (jobs.any fun p => p.fst == k) = true
  · rw [if_pos hmem, List.map_map]
    have hfst : (Prod.fst ∘ fun p : String × DaemonJobState =>
        if p.fst == k then (p.fst, f p.snd) else p) = Prod.fst := by
      funext p
      by_cases hp : p.fst = k <;> simp [hp]
    rw [hfst]
    exact h
  · rw [if_neg hmem, List.map_append]
    exact List.mem_append_left _ h

theorem daemon_deploy_keys (s : DaemonState) (p : MqttPayload) (j : String)
    (h : j ∈ s.jobs.map Prod.fst) :
    j ∈ (daemon_on_message_deploy s p).fst.jobs.map Prod.fst := by
  cases p with
  | invalid raw => exact h
  | obj fields =>
    cases hpd : parseDeployJob fields with
    | none =>
      simp only [daemon_on_message_deploy, hpd]
      exact h
    | some job =>
      simp only [daemon_on_message_deploy, hpd]
      by_cases hmem : (s.jobs.any fun q => q.fst == job.job_id) = true
      · rw [if_pos hmem]
        exact h
      · rw [if_neg hmem]
        have h2 : j ∈ List.map Prod.fst
            (s.jobs ++ [(job.job_id, (⟨"RECEIVED", none⟩ : DaemonJobState))]) := by
          rw [List.map_append]
          exact List.mem_append_left _ h
        exact h2

theorem daemon_worker_keys (s : DaemonState) (oc : Except String Unit) (j : String)
    (h : j ∈ s.jobs.map Prod.fst) :
    j ∈ (daemon_worker_step s oc).jobs.map Prod.fst := by
  unfold daemon_worker_step
  cases hq : s.deployQueue with
  | nil => exact h
  | cons job rest =>
    cases oc with
    | ok u =>
      show j ∈ List.map Prod.fst (upsertJob s.jobs job.job_id
        (fun st => { st with status := "COMPLETED" }))
      exact upsertJob_keys _ _ _ _ h
    | error m =>
      show j ∈ List.map Prod.fst (upsertJob s.jobs job.job_id
        (fun st => { st with status := "FAILED", error_msg := some m }))
      exact upsertJob_keys _ _ _ _ h

/-- C9: on the daemon, a job_id leaves the in-memory map only through an ack
message carrying exactly that job_id; an ack for an absent job_id is a
no-op; and every reporter tick publishes the entire map, so a job that
reached COMPLETED or FAILED keeps being included in the published snapshots
until such an ack arrives. -/
theorem C9_eviction_only_by_ack (s : DaemonState) (e : DaemonEvent) (j : String) :
    (j ∈ s.jobs.map Prod.fst → j ∉ (daemonStep s e).fst.jobs.map Prod.fst →
      e = .ackMsg j) ∧
    (j ∉ s.jobs.map Prod.fst → daemonStep s (.ackMsg j) = (s, [], none)) ∧
    (daemonStep s .reportTick).snd.fst = [.publishState s.jobs] := by
  refine ⟨?_, ?_, rfl⟩
  · intro hin hout
    cases e with
    | deployMsg p => exact absurd (daemon_deploy_keys s p j hin) hout
    | ackMsg p =>
      have hstep : (daemonStep s (.ackMsg p)).fst = daemon_on_message_ack s p := rfl
      rw [hstep] at hout
      unfold daemon_on_message_ack at hout
      by_cases hmem : (s.jobs.any fun q => q.fst == p) = true
      · rw [if_pos hmem] at hout
        by_cases hjp : j = p
        · rw [hjp]
        · exfalso
          apply hout
          obtain ⟨x, hx, hxj⟩ := List.mem_map.mp hin
          exact List.mem_map.mpr ⟨x, List.mem_filter.mpr
            ⟨hx, by rw [hxj]; exact bne_iff_ne.mpr hjp⟩, hxj⟩
      · rw [if_neg hmem] at hout
        exact absurd hin hout
    | workerStep oc => exact absurd (daemon_worker_keys s oc j hin) hout
    | reportTick => exact absurd hin hout
  · intro hnot
    show (daemon_on_message_ack s j, ([] : List DaemonEffect), (none : Option DaemonExn)) =
      (s, [], none)
    unfold daemon_on_message_ack
    by_cases hmem : (s.jobs.any fun q => q.fst == j) = true
    · exfalso
      obtain ⟨x, hx, hxe⟩ := List.any_eq_true.mp hmem
      exact hnot (List.mem_map.mpr ⟨x, hx, beq_iff_eq.mp hxe⟩)
    · rw [if_neg hmem]

/-- C9 witness: eviction of job «k» by its own ack, and a no-op ack for an
absent job id. -/
theorem C9_eviction_only_by_ack_witness :
    DaemonEvent.ackMsg "k" = DaemonEvent.ackMsg "k" ∧
    daemonStep daemonS0 (.ackMsg "z") = (daemonS0, [], none) := by
  constructor
  · exact (C9_eviction_only_by_ack daemonS0 (.ackMsg "k") "k").1 (by decide) (by decide)
  · exact (C9_eviction_only_by_ack daemonS0 (.ackMsg "k") "z").2.1 (by decide)

/-! ## Batch loop lemmas for C10 -/

theorem zip_take_min (l1 : List α) (l2 : List β) :
    l1.zip l2 = (l1.take (min l1.length l2.length)).zip (l2.take (min l1.length l2.length)) := by
  have h : (l1.zip l2).take (min l1.length l2.length) = l1.zip l2 :=
    List.take_of_length_le (by rw [List.length_zip])
  conv_lhs => rw [← h]
  rw [List.zip_eq_zipWith, List.take_zipWith, ← List.zip_eq_zipWith]

theorem deployOne_responses_len (t : Nat) (u : Nat → String) (i : Nat)
    (st : DeployBatchState) (f : UploadFile) (fi : FileCreate) :
    (deployOne t u i st f fi).responses.length = st.responses.length + 1 := by
  unfold deployOne
  dsimp only
  split
  · split
    · simp
    · simp
  · simp

theorem deployLoop_responses_len (t : Nat) (u : Nat → String) :
    ∀ (l : List (UploadFile × FileCreate)) (idx : Nat) (st : DeployBatchState),
      (deployLoop t u idx st l).responses.length = st.responses.length + l.length := by
  intro l
  induction l with
  | nil => intro idx st; rfl
  | cons p rest ih =>
    intro idx st
    obtain ⟨f, fi⟩ := p
    show (deployLoop t u (idx + 1) (deployOne t u idx st f fi) rest).responses.length = _
    rw [ih (idx + 1) (deployOne t u idx st f fi), deployOne_responses_len]
    simp only [List.length_cons]
    omega

/-- C10: file_deploy performs no file/info count check.  Its result is the
same as if both lists were truncated to the shorter length (the excess of
the longer list is ignored, with no mismatch 400), and exactly
min(len files, len infos) per-file entries are produced; file_upload, in
contrast, rejects any mismatch with HTTP 400. -/
theorem C10_deploy_ignores_excess (files : List UploadFile) (infos : List FileCreate)
    (db : List FileRow) (jobs : List DeployJobRow) (t : Nat) (uuids : Nat → String) :
    file_deploy files infos db jobs t uuids =
      file_deploy (files.take (min files.length infos.length))
        (infos.take (min files.length infos.length)) db jobs t uuids ∧
    (file_deploy files infos db jobs t uuids).responses.length =
      min files.length infos.length ∧
    (files.length ≠ infos.length →
      file_upload files infos db t uuids = .mismatchError) := by
  refine ⟨?_, ?_, ?_⟩
  · unfold file_deploy
    rw [← zip_take_min]
  · unfold file_deploy
    show (deployLoop t uuids 0 ⟨db, jobs, [], [], []⟩ (files.zip infos)).responses.length = _
    rw [deployLoop_responses_len]
    simp [List.length_zip]
  · intro h
    unfold file_upload
    rw [if_pos (bne_iff_ne.mpr h)]

/-- C10 witness: one file part and an empty info list make file_upload
reject while file_deploy quietly processes zero pairs. -/
theorem C10_deploy_ignores_excess_witness :
    file_upload [⟨"f", [1]⟩] [] [] 0 uuidStream = .mismatchError ∧
    (file_deploy [⟨"f", [1]⟩] [] [] [] 0 uuidStream).responses.length = 0 := by
  constructor
  · exact (C10_deploy_ignores_excess [⟨"f", [1]⟩] [] [] [] 0 uuidStream).2.2 (by decide)
  · exact (C10_deploy_ignores_excess [⟨"f", [1]⟩] [] [] [] 0 uuidStream).2.1

/-! ## Timestamp lemmas for the amended C8 -/

theorem update_file_timestamp_some (r : FileRow) (i : FileCreate)
    (fn sh : Option String) (vl : Option Bool) (t : Nat) :
    (update_file r i (some t) fn sh vl).timestamp = t := by
  rcases sh with _ | s <;> rcases fn with _ | n <;> rcases vl with _ | v <;>
    simp only [update_file] <;> split <;> (try split) <;> rfl

theorem update_file_timestamp_none (r : FileRow) (i : FileCreate)
    (fn sh : Option String) (vl : Option Bool) :
    (update_file r i none fn sh vl).timestamp = r.timestamp := by
  rcases sh with _ | s <;> rcases fn with _ | n <;> rcases vl with _ | v <;>
    simp only [update_file] <;> split <;> (try split) <;> rfl

theorem updateFirst_map_eq {α β : Type} (p : α → Bool) (f : α → α) (g : α → β) :
    ∀ l : List α, (∀ x ∈ l, p x = true → g (f x) = g x) →
      (updateFirst p f l).map g = l.map g := by
  intro l
  induction l with
  | nil => intro _; rfl
  | cons x xs ih =>
    intro hcond
    unfold updateFirst
    by_cases hp : p x = true
    · rw [if_pos hp]
      simp only [List.map_cons]
      rw [hcond x (List.mem_cons_self _ _) hp]
    · rw [if_neg hp]
      simp only [List.map_cons]
      rw [ih (fun y hy hpy => hcond y (List.mem_cons_of_mem _ hy) hpy)]

/-- Head of a get_files result is a row of the table. -/
theorem get_files_head_mem (db : List FileRow) (q : FileQuery) (r : FileRow)
    (rest : List FileRow) (h : get_files db q = r :: rest) : r ∈ db := by
  have hmem : r ∈ get_files db q := by rw [h]; exact List.mem_cons_self _ _
  unfold get_files at hmem
  exact List.mem_of_mem_filter ((List.perm_insertionSort _ _).mem_iff.mp hmem)

theorem upload_a_file_row_timestamp (f : UploadFile) (i : FileCreate) (t : Nat)
    (db : List FileRow) (u : String) (r2 : FileRow)
    (h : (upload_a_file f i t db u true).outcome = .row r2) : r2.timestamp = t := by
  unfold upload_a_file at h
  dsimp only at h
  repeat' split at h
  all_goals dsimp only at h
  all_goals
    first
      | (rw [show ∀ a b, (UploadOutcome.row a = UploadOutcome.row b) = (a = b) from
            fun a b => by simp] at h
         rw [← h]
         exact update_file_timestamp_some _ _ _ _ _ _)
      | simp at h

/-- Timestamps of the whole table are unchanged by file_validate and
file_invalidate, provided the (bucket, object_name) primary key is unique
in the table. -/
theorem validate_preserves_timestamps (db : List FileRow) (b o : String)
    (hkeys : (db.map fun x => (x.s3_bucket, x.s3_object_name)).Nodup)
    (r : FileRow) (rest : List FileRow)
    (hg : get_files db { s3_bucket := some b, s3_object_name := some o } = r :: rest)
    (r2 : FileRow) (hr2 : r2.timestamp = r.timestamp) :
    (updateFirst (fun x => x.s3_bucket == r.s3_bucket && x.s3_object_name == r.s3_object_name)
        (fun _ => r2) db).map (fun x => x.timestamp) = db.map (fun x => x.timestamp) := by
  apply updateFirst_map_eq
  intro x hx hpx
  have hkey : (x.s3_bucket, x.s3_object_name) = (r.s3_bucket, r.s3_object_name) := by
    rw [Bool.and_eq_true] at hpx
    rcases hpx with ⟨h1, h2⟩
    rw [beq_iff_eq.mp h1, beq_iff_eq.mp h2]
  have hrmem : r ∈ db := get_files_head_mem db _ r rest hg
  have hxr : x = r := List.inj_on_of_nodup_map hkeys hx hrmem hkey
  rw [hr2, hxr]

/-- C8 amended: crud.update_file bumps the timestamp exactly when a
timestamp is passed.  PATCH /file/update passes the current time, so any row
it updates (directly or through upload_a_file's update path) carries the
update time; PUT /file/validate and PUT /file/invalidate pass none, so they
flip `valid` while every stored timestamp stays unchanged. -/
theorem C8_update_bumps_validate_does_not
    (r : FileRow) (i : FileCreate) (fn sh : Option String) (vl : Option Bool) (t : Nat)
    (db : List FileRow) (info : FileCreate) (now : Nat) (uuid : String)
    (f : UploadFile) (b o : String)
    (hkeys : (db.map fun x => (x.s3_bucket, x.s3_object_name)).Nodup) :
    ((update_file r i (some t) fn sh vl).timestamp = t) ∧
    ((update_file r i none fn sh vl).timestamp = r.timestamp) ∧
    (∀ r2 db2, file_update db info none now uuid = .updatedRow r2 db2 →
      r2.timestamp = now) ∧
    (∀ u2 r2, file_update db info (some f) now uuid = .uploaded u2 →
      u2.outcome = .row r2 → r2.timestamp = now) ∧
    (∀ r2 db2, file_validate db b o = some (r2, db2) →
      db2.map (fun x => x.timestamp) = db.map (fun x => x.timestamp)) ∧
    (∀ r2 db2, file_invalidate db b o = some (r2, db2) →
      db2.map (fun x => x.timestamp) = db.map (fun x => x.timestamp)) := by
  refine ⟨update_file_timestamp_some _ _ _ _ _ _, update_file_timestamp_none _ _ _ _ _,
    ?_, ?_, ?_, ?_⟩
  · intro r2 db2 h
    unfold file_update at h
    cases hg : get_files db { s3_bucket := some info.bucketV, s3_object_name := some info.objectV } with
    | nil => rw [hg] at h; cases h
    | cons r0 rest =>
      rw [hg] at h
      injection h with h1 _
      rw [← h1]
      exact update_file_timestamp_some _ _ _ _ _ _
  · intro u2 r2 h hrow
    unfold file_update at h
    cases hg : get_files db { s3_bucket := some info.bucketV, s3_object_name := some info.objectV } with
    | nil => rw [hg] at h; cases h
    | cons r0 rest =>
      rw [hg] at h
      injection h with h1
      rw [← h1] at hrow
      exact upload_a_file_row_timestamp f info now db uuid r2 hrow
  · intro r2 db2 h
    unfold file_validate at h
    cases hg : get_files db { s3_bucket := some b, s3_object_name := some o } with
    | nil => rw [hg] at h; cases h
    | cons r0 rest =>
      rw [hg] at h
      injection h with h1
      injection h1 with h2 h3
      subst h2
      subst h3
      exact validate_preserves_timestamps db b o hkeys r0 rest hg _
        (update_file_timestamp_none _ _ _ _ _)
  · intro r2 db2 h
    unfold file_invalidate at h
    cases hg : get_files db { s3_bucket := some b, s3_object_name := some o } with
    | nil => rw [hg] at h; cases h
    | cons r0 rest =>
      rw [hg] at h
      injection h with h1
      injection h1 with h2 h3
      subst h2
      subst h3
      exact validate_preserves_timestamps db b o hkeys r0 rest hg _
        (update_file_timestamp_none _ _ _ _ _)

/-- C8 witness: the amended statement applied at the fixture row, showing a
bumped PATCH-style update next to an invalidate that keeps timestamp 5. -/
theorem C8_update_bumps_validate_does_not_witness :
    (update_file rowTs5 {} (some 9) none none none).timestamp = 9 ∧
    [{ rowTs5 with valid := false }].map (fun x => x.timestamp) =
      [rowTs5].map (fun x => x.timestamp) := by
  constructor
  · exact (C8_update_bumps_validate_does_not rowTs5 {} none none none 9 [rowTs5] {} 0 "u"
      ⟨"f", [1]⟩ "files" "o" (by decide)).1
  · exact (C8_update_bumps_validate_does_not rowTs5 {} none none none 9 [rowTs5] {} 0 "u"
      ⟨"f", [1]⟩ "files" "o" (by decide)).2.2.2.2.2 { rowTs5 with valid := false }
      [{ rowTs5 with valid := false }] (by decide)


theorem upload_into_empty (content : List Nat) (fname : String) (info : FileCreate)
    (t : Nat) (u : String) (hobj : info.s3_object_name = none) (hf : fname ≠ "") :
    upload_a_file ⟨fname, content⟩ info t [] u false =
      ⟨.resp ⟨info.bucketV, fname ++ "_" ++ u, info.robotIdV, info.deployPathV, fname,
          .UPLOADED, none⟩,
       { info with s3_object_name := some (fname ++ "_" ++ u) },
       [⟨info.bucketV, fname ++ "_" ++ u, fname, t, info.robotIdV, info.robotTypeV,
          info.robotVersionV, info.deployPathV, sha256Hex content, info.metadataV, true⟩],
       [.upload info.bucketV (fname ++ "_" ++ u) content]⟩ := by
  have hov : info.objectV = "" := by simp [FileCreate.objectV, hobj]
  have hbne : (fname != "") = true := bne_iff_ne.mpr hf
  unfold upload_a_file
  dsimp only
  rw [hov]
  simp [hbne, get_files, create_file, FileCreate.objectV, FileCreate.bucketV,
    FileCreate.robotIdV, FileCreate.deployPathV, FileCreate.robotTypeV,
    FileCreate.robotVersionV, FileCreate.metadataV]

/-! ## State-handler pass-ordering lemmas for the amended C3 -/

theorem processEntry_shape (pat : String) (jobs : List DeployJobRow) (rid jid : String)
    (e : StateEntry) :
    (processEntry pat jobs rid jid e).fst = [] ∨
    (∃ st, (processEntry pat jobs rid jid e).fst = [.statusUpdate jid st]) ∨
    (∃ st a, (processEntry pat jobs rid jid e).fst =
      [.statusUpdate jid st, .pubAck a jid]) ∨
    (∃ st a x y z w, (processEntry pat jobs rid jid e).fst =
      [.statusUpdate jid st, .pubAck a jid, .targetUpsert x y z w]) ∨
    (∃ a, (processEntry pat jobs rid jid e).fst = [.pubAck a jid]) ∨
    (∃ a x y z w, (processEntry pat jobs rid jid e).fst =
      [.pubAck a jid, .targetUpsert x y z w]) := by
  unfold processEntry
  cases hs : parseJobStatus e.status with
  | none =>
    simp only [hs]
    exact Or.inl (by simp)
  | some st =>
    cases hu : update_job_status jobs jid st e.error_msg with
    | error e' =>
      cases e' with
      | multipleResultsFound =>
        simp only [hs, hu]
        exact Or.inl (by simp)
      | noResultFound =>
        simp only [hs, hu]
        by_cases hc : (e.status == "COMPLETED" || e.status == "FAILED") = true
        · rw [if_pos hc]
          by_cases hc2 : (e.status == "COMPLETED") = true
          · rw [if_pos hc2]
            cases hg : get_job_by_id jobs jid with
            | error e2 =>
              simp only [hg]
              exact Or.inr (Or.inr (Or.inr (Or.inr (Or.inl ⟨get_ack_topic pat rid, by simp⟩))))
            | ok dbj =>
              simp only [hg]
              cases hp : parseJsonObj dbj.deploy_msg with
              | none =>
                simp only [hp]
                exact Or.inr (Or.inr (Or.inr (Or.inr (Or.inl
                  ⟨get_ack_topic pat rid, by simp⟩))))
              | some info =>
                simp only [hp]
                rcases hb : lookupField info "s3_bucket" with _ | b <;>
                  rcases ho : lookupField info "s3_object_name" with _ | o <;>
                  simp only [hb, ho]
                · exact Or.inr (Or.inr (Or.inr (Or.inr (Or.inl
                    ⟨get_ack_topic pat rid, by simp⟩))))
                · exact Or.inr (Or.inr (Or.inr (Or.inr (Or.inl
                    ⟨get_ack_topic pat rid, by simp⟩))))
                · exact Or.inr (Or.inr (Or.inr (Or.inr (Or.inl
                    ⟨get_ack_topic pat rid, by simp⟩))))
                · exact Or.inr (Or.inr (Or.inr (Or.inr (Or.inr
                    ⟨get_ack_topic pat rid, dbj.robot_id, dbj.deploy_path, b, o, by simp⟩))))
          · rw [if_neg hc2]
            exact Or.inr (Or.inr (Or.inr (Or.inr (Or.inl ⟨get_ack_topic pat rid, by simp⟩))))
        · rw [if_neg hc]
          exact Or.inl (by simp)
    | ok jobs2 =>
      simp only [hs, hu]
      by_cases hc : (e.status == "COMPLETED" || e.status == "FAILED") = true
      · rw [if_pos hc]
        by_cases hc2 : (e.status == "COMPLETED") = true
        · rw [if_pos hc2]
          cases hg : get_job_by_id jobs2 jid with
          | error e2 =>
            simp only [hg]
            exact Or.inr (Or.inr (Or.inl ⟨st, get_ack_topic pat rid, by simp⟩))
          | ok dbj =>
            simp only [hg]
            cases hp : parseJsonObj dbj.deploy_msg with
            | none =>
              simp only [hp]
              exact Or.inr (Or.inr (Or.inl ⟨st, get_ack_topic pat rid, by simp⟩))
            | some info =>
              simp only [hp]
              rcases hb : lookupField info "s3_bucket" with _ | b <;>
                rcases ho : lookupField info "s3_object_name" with _ | o <;>
                simp only [hb, ho]
              · exact Or.inr (Or.inr (Or.inl ⟨st, get_ack_topic pat rid, by simp⟩))
              · exact Or.inr (Or.inr (Or.inl ⟨st, get_ack_topic pat rid, by simp⟩))
              · exact Or.inr (Or.inr (Or.inl ⟨st, get_ack_topic pat rid, by simp⟩))
              · exact Or.inr (Or.inr (Or.inr (Or.inl
                  ⟨st, get_ack_topic pat rid, dbj.robot_id, dbj.deploy_path, b, o, by simp⟩)))
        · rw [if_neg hc2]
          exact Or.inr (Or.inr (Or.inl ⟨st, get_ack_topic pat rid, by simp⟩))
      · rw [if_neg hc]
        exact Or.inr (Or.inl ⟨st, by simp⟩)

theorem processEntry_no_deploy (pat : String) (jobs : List DeployJobRow) (rid jid : String)
    (e : StateEntry) (eff : CloudEffect) (h : eff ∈ (processEntry pat jobs rid jid e).fst) :
    ∀ tp pl, eff ≠ .pubDeploy tp pl := by
  rcases processEntry_shape pat jobs rid jid e with h0 | ⟨st, h0⟩ | ⟨st, a, h0⟩ |
    ⟨st, a, x, y, z, w, h0⟩ | ⟨a, h0⟩ | ⟨a, x, y, z, w, h0⟩ <;>
    rw [h0] at h <;> intro tp pl heq <;> subst heq <;> simp at h

theorem processEntry_attribution (pat : String) (jobs : List DeployJobRow) (rid jid : String)
    (e : StateEntry) (eff : CloudEffect) (h : eff ∈ (processEntry pat jobs rid jid e).fst)
    (j : String) (hj : effJob eff = some j) : j = jid := by
  rcases processEntry_shape pat jobs rid jid e with h0 | ⟨st, h0⟩ | ⟨st, a, h0⟩ |
    ⟨st, a, x, y, z, w, h0⟩ | ⟨a, h0⟩ | ⟨a, x, y, z, w, h0⟩ <;>
    rw [h0] at h <;> simp only [List.mem_cons, List.not_mem_nil, or_false] at h <;>
    first
      | exact h.elim
      | (rcases h with rfl | rfl | rfl <;> simp [effJob] at hj <;> exact hj.symm)

theorem processEntry_status_before_ack (pat : String) (jobs : List DeployJobRow)
    (rid jid : String) (e : StateEntry) (i k : Nat) (a j j2 : String) (st : JobStatus)
    (hack : (processEntry pat jobs rid jid e).fst[i]? = some (.pubAck a j))
    (hsu : (processEntry pat jobs rid jid e).fst[k]? = some (.statusUpdate j2 st)) :
    k < i := by
  rcases processEntry_shape pat jobs rid jid e with h0 | ⟨st2, h0⟩ | ⟨st2, a2, h0⟩ |
    ⟨st2, a2, x, y, z, w, h0⟩ | ⟨a2, h0⟩ | ⟨a2, x, y, z, w, h0⟩ <;>
  rw [h0] at hack hsu <;>
  rcases i with _ | _ | _ | i <;> rcases k with _ | _ | _ | k <;>
    simp at hack hsu <;> omega

theorem processEntries_no_deploy (pat rid : String) :
    ∀ (entries : List (String × StateEntry)) (jobs : List DeployJobRow)
      (eff : CloudEffect), eff ∈ (processEntries pat rid jobs entries).fst →
      ∀ tp pl, eff ≠ .pubDeploy tp pl := by
  intro entries
  induction entries with
  | nil => intro jobs eff h; exact absurd h (List.not_mem_nil _)
  | cons pe rest ih =>
    intro jobs eff h
    obtain ⟨jid, e⟩ := pe
    unfold processEntries at h
    rcases hp : processEntry pat jobs rid jid e with ⟨effs, jobs2, exn⟩
    rw [hp] at h
    cases exn with
    | some ex =>
      exact processEntry_no_deploy pat jobs rid jid e eff (by rw [hp]; exact h)
    | none =>
      dsimp at h
      rcases List.mem_append.mp h with h1 | h2
      · exact processEntry_no_deploy pat jobs rid jid e eff (by rw [hp]; exact h1)
      · exact ih jobs2 eff h2

theorem processEntries_attribution (pat rid : String) :
    ∀ (entries : List (String × StateEntry)) (jobs : List DeployJobRow)
      (eff : CloudEffect), eff ∈ (processEntries pat rid jobs entries).fst →
      ∀ j, effJob eff = some j → j ∈ entries.map Prod.fst := by
  intro entries
  induction entries with
  | nil => intro jobs eff h; exact absurd h (List.not_mem_nil _)
  | cons pe rest ih =>
    intro jobs eff h j hj
    obtain ⟨jid, e⟩ := pe
    unfold processEntries at h
    rcases hp : processEntry pat jobs rid jid e with ⟨effs, jobs2, exn⟩
    rw [hp] at h
    cases exn with
    | some ex =>
      have := processEntry_attribution pat jobs rid jid e eff (by rw [hp]; exact h) j hj
      simp [this]
    | none =>
      dsimp at h
      rcases List.mem_append.mp h with h1 | h2
      · have := processEntry_attribution pat jobs rid jid e eff (by rw [hp]; exact h1) j hj
        simp [this]
      · exact List.mem_cons_of_mem _ (ih jobs2 eff h2 j hj)

theorem processEntries_status_before_ack (pat rid : String) :
    ∀ (entries : List (String × StateEntry)), (entries.map Prod.fst).Nodup →
    ∀ (jobs : List DeployJobRow) (i k : Nat) (a j : String) (st : JobStatus),
      (processEntries pat rid jobs entries).fst[i]? = some (.pubAck a j) →
      (processEntries pat rid jobs entries).fst[k]? = some (.statusUpdate j st) →
      k < i := by
  intro entries
  induction entries with
  | nil =>
    intro _ jobs i k a j st hack _
    simp [processEntries] at hack
  | cons pe rest ih =>
    intro hnd jobs i k a j st hack hsu
    obtain ⟨jid, e⟩ := pe
    have hnd2 : (rest.map Prod.fst).Nodup := (List.nodup_cons.mp (by simpa using hnd)).2
    have hjid : jid ∉ rest.map Prod.fst := (List.nodup_cons.mp (by simpa using hnd)).1
    unfold processEntries at hack hsu
    rcases hp : processEntry pat jobs rid jid e with ⟨effs, jobs2, exn⟩
    rw [hp] at hack hsu
    cases exn with
    | some ex =>
      exact processEntry_status_before_ack pat jobs rid jid e i k a j j st
        (by rw [hp]; exact hack) (by rw [hp]; exact hsu)
    | none =>
      dsimp at hack hsu
      by_cases hi : i < effs.length
      · rw [List.getElem?_append_left hi] at hack
        by_cases hk : k < effs.length
        · rw [List.getElem?_append_left hk] at hsu
          exact processEntry_status_before_ack pat jobs rid jid e i k a j j st
            (by rw [hp]; exact hack) (by rw [hp]; exact hsu)
        · exfalso
          push_neg at hk
          rw [List.getElem?_append_right hk] at hsu
          have hmem : CloudEffect.statusUpdate j st ∈ (processEntries pat rid jobs2 rest).fst :=
            List.getElem?_mem hsu
          have hj2 : j ∈ rest.map Prod.fst :=
            processEntries_attribution pat rid rest jobs2 _ hmem j (by simp [effJob])
          have hmem2 : CloudEffect.pubAck a j ∈ effs := List.getElem?_mem hack
          have hjj : j = jid := processEntry_attribution pat jobs rid jid e _
            (by rw [hp]; exact hmem2) j (by simp [effJob])
          rw [hjj] at hj2
          exact hjid hj2
      · push_neg at hi
        rw [List.getElem?_append_right hi] at hack
        by_cases hk : k < effs.length
        · omega
        · push_neg at hk
          rw [List.getElem?_append_right hk] at hsu
          have := ih hnd2 jobs2 (i - effs.length) (k - effs.length) a j st hack hsu
          omega

theorem resendEffects_all_deploy (pat : String) (jobs : List DeployJobRow) (rid : String)
    (states : List (String × StateEntry)) (e : CloudEffect)
    (h : e ∈ resendEffects pat jobs rid states) : ∃ tp pl, e = .pubDeploy tp pl := by
  unfold resendEffects at h
  obtain ⟨job, hjob, hsome⟩ := List.mem_filterMap.mp h
  by_cases hc : (states.any fun q => q.fst == job.job_id) = true
  · rw [if_pos hc] at hsome
    cases hsome
  · rw [if_neg hc] at hsome
    injection hsome with h2
    exact ⟨_, _, h2.symm⟩

/-- C3 amended: the resend pass does run first — every broker deploy
republish precedes all other effects — but passes 2-4 are interleaved per
payload entry rather than run as whole passes.  What survives of the
claim's ordering is per job: with distinct payload keys, any ack for a
job_id is emitted strictly after that same job's status-row update
(whenever both occur in the trace). -/
theorem C3_resends_first_status_before_ack (pat : String) (jobs : List DeployJobRow)
    (rid : String) (states : List (String × StateEntry))
    (hnd : (states.map Prod.fst).Nodup) :
    (∃ rest, (cloud_on_message pat jobs rid states).effects =
        resendEffects pat jobs rid states ++ rest ∧
        (∀ e ∈ resendEffects pat jobs rid states, ∃ tp pl, e = CloudEffect.pubDeploy tp pl) ∧
        (∀ e ∈ rest, ∀ tp pl, e ≠ CloudEffect.pubDeploy tp pl)) ∧
    (∀ (i k : Nat) (a j : String) (st : JobStatus),
      (cloud_on_message pat jobs rid states).effects[i]? = some (.pubAck a j) →
      (cloud_on_message pat jobs rid states).effects[k]? = some (.statusUpdate j st) →
      k < i) := by
  constructor
  · refine ⟨(processEntries pat rid jobs states).fst, rfl, ?_, ?_⟩
    · intro e he
      exact resendEffects_all_deploy pat jobs rid states e he
    · intro e he tp pl
      exact processEntries_no_deploy pat rid states jobs e he tp pl
  · intro i k a j st hack hsu
    have heq : (cloud_on_message pat jobs rid states).effects =
        resendEffects pat jobs rid states ++ (processEntries pat rid jobs states).fst := rfl
    rw [heq] at hack hsu
    have hiR : ¬ i < (resendEffects pat jobs rid states).length := by
      intro hlt
      rw [List.getElem?_append_left hlt] at hack
      obtain ⟨tp, pl, hpd⟩ := resendEffects_all_deploy pat jobs rid states _
        (List.getElem?_mem hack)
      cases hpd
    have hkR : ¬ k < (resendEffects pat jobs rid states).length := by
      intro hlt
      rw [List.getElem?_append_left hlt] at hsu
      obtain ⟨tp, pl, hpd⟩ := resendEffects_all_deploy pat jobs rid states _
        (List.getElem?_mem hsu)
      cases hpd
    push_neg at hiR hkR
    rw [List.getElem?_append_right hiR] at hack
    rw [List.getElem?_append_right hkR] at hsu
    have := processEntries_status_before_ack pat rid states hnd jobs _ _ a j st hack hsu
    omega

/-- C3 witness: in the two-job COMPLETED trace, each job's status update
(indices 0 and 3) precedes its own ack (indices 1 and 4). -/
theorem C3_resends_first_status_before_ack_witness : (0 : Nat) < 1 ∧ (3 : Nat) < 4 := by
  constructor
  · exact (C3_resends_first_status_before_ack "ota/<robot_id>/<operation>" twoJobsA
      "robot_a" twoCompleted (by decide)).2 1 0 "ota/robot_a/ack" "j1" .COMPLETED
      (by decide) (by decide)
  · exact (C3_resends_first_status_before_ack "ota/<robot_id>/<operation>" twoJobsA
      "robot_a" twoCompleted (by decide)).2 4 3 "ota/robot_a/ack" "j2" .COMPLETED
      (by decide) (by decide)

end OTA


